import Mathlib

/-!
# Verification of the `Time_change_listener` process supervisor

Shallow embedding of
`src/auto-dark-light@gihaume/files/auto-dark-light@gihaume/lib/time_change_listener/time_change_listener.js`.

The class supervises a child process over line-oriented stdio:
* the constructor checks for `make`/`gcc`, runs `make -C path`, spawns the
  executable, and starts two async read loops;
* `#listen_input` loops: await a line read on the child's stdout, invoke the
  current value of the `#callback_when_change` field, repeat while
  `!#end_listen`;
* `#listen_error` loops: await `read_line_finish` on the child's stderr
  (catching failures by invoking `#callback_for_errors` with the caught error
  value and resolving `[null, 0]`), invoke `#callback_for_errors` with a
  formatted message when the line is non-null and of positive length, repeat
  while `!#end_listen`;
* `enable`/`disable`/`finalize` write newline-terminated commands to the
  child's stdin with no try/catch, so a write failure propagates to the caller.

GJS runs all of this on a single-threaded event loop: `finalize` executes
atomically between loop-iteration continuations, so every iteration of a read
loop observes a consistent snapshot of the fields `#callback_when_change` and
`#end_listen`.  Each loop iteration is therefore modelled against a snapshot
(`IterCtx` below), and an interleaved execution is a list of reads, each paired
with the snapshot in force when that read completed.

Modelled from the spec: the translator function `_` of `lib/translator.js`
(required by the source but not present under `src/`) maps a message to its
localized form; the spec calls the wrapping text "a fixed descriptive prefix",
so `_` is modelled as the identity on the source-language text.
-/

namespace TimeChangeListener

/-- The fixed name of the child executable (`EXECUTABLE_NAME` in the source). -/
def EXECUTABLE_NAME : String := "auto-dark-light-time-change-listener"

/-- The outcome of one completed `read_line_async` on the child's stdout.
The source's `#listen_input` never calls `read_line_finish`, so the three
cases are indistinguishable to it: a closed stream (end of file) or a failed
read completes the awaited promise just like a line does. -/
inductive OutRead where
  | line (s : String)
  | eof
  | readFail (e : String)
deriving DecidableEq, Repr

/-- The outcome of one completed `read_line_finish` on the child's stderr:
a line `s` (with reported length `s.length`), end of file (`[null, 0]`), or a
thrown read failure caught by the source's `catch` block. -/
inductive ErrRead where
  | line (s : String)
  | eof
  | readFail (e : String)
deriving DecidableEq, Repr

/-- The argument passed to `#callback_for_errors`: either the formatted
string message built for a stderr line, or the raw caught error value that the
`catch` block passes through unformatted. -/
inductive ErrArg where
  | msg (s : String)
  | errObj (e : String)
deriving DecidableEq, Repr

/-- Observable events of an execution of the supervisor. -/
inductive Event where
  | readOut (r : OutRead)
  | onChange
  | readErr (r : ErrRead)
  | onError (a : ErrArg)
  | writeIn (s : String)
  | waitChild
  | spawnMake
  | spawnChild
deriving DecidableEq, Repr

/-- The value held by the `#callback_when_change` field: the owner-supplied
callback, or the no-op `() => \x7b\x7d` that `finalize` installs. -/
inductive ChangeCb where
  | owner
  | noop
deriving DecidableEq, Repr

/-- Invoking the current change callback: the owner's callback produces an
observable `onChange` event, the no-op produces nothing. -/
def ChangeCb.invoke : ChangeCb → List Event
  | ChangeCb.owner => [Event.onChange]
  | ChangeCb.noop => []

/-- The snapshot of the supervisor fields a single loop iteration observes:
`cb` is `#callback_when_change` at the moment it is invoked, `stop` is
`#end_listen` at the `while` check.  Before `finalize` this is
`⟨owner, false⟩`; after `finalize` has run it is `⟨noop, true⟩`. -/
structure IterCtx where
  cb : ChangeCb
  stop : Bool
deriving DecidableEq, Repr

/-- Snapshot before `finalize` is called. -/
def preCtx : IterCtx := ⟨ChangeCb.owner, false⟩

/-- Snapshot after `finalize` has run. -/
def postCtx : IterCtx := ⟨ChangeCb.noop, true⟩

/-- `#listen_input`, the Notification Reader loop:
`do { await read; this.#callback_when_change(); } while (!this.#end_listen)`.
The input is the (finite, observed) sequence of completed stdout reads, each
paired with the field snapshot in force when it completed; a loop blocked on a
read that never completes contributes no further events, so the trace simply
ends when the list is exhausted. -/
def listen_input : List (OutRead × IterCtx) → List Event
  | [] => []
  | (r, c) :: rest =>
      (Event.readOut r :: ChangeCb.invoke c.cb) ++
        (if c.stop then [] else listen_input rest)

/-- The formatted message `#listen_error` builds for a stderr line `s`
(the translator `_` modelled as the identity, see the file header). -/
def err_msg_head : String :=
  "the subprocess `" ++ EXECUTABLE_NAME ++ "` wrote on its error output: "

/-- The full stderr-line message: fixed head, then the raw line verbatim. -/
def err_msg (s : String) : String := err_msg_head ++ s

/-- One iteration body of `#listen_error`: a read failure first fires
`#callback_for_errors(error)` inside the `catch` and resolves `[null, 0]`
(so the `if` is skipped); a line fires the formatted message exactly when
`line !== null && length > 0`; end of file (`[null, 0]`) fires nothing. -/
def err_iter : ErrRead → List Event
  | ErrRead.line s =>
      Event.readErr (ErrRead.line s) ::
        (if 0 < s.length then [Event.onError (ErrArg.msg (err_msg s))] else [])
  | ErrRead.eof => [Event.readErr ErrRead.eof]
  | ErrRead.readFail e =>
      [Event.readErr (ErrRead.readFail e), Event.onError (ErrArg.errObj e)]

/-- `#listen_error`, the Error Reader loop; the Boolean paired with each read
is the `#end_listen` snapshot at that iteration's `while` check
(`#callback_for_errors` is never reassigned, so no callback snapshot is
needed). -/
def listen_error : List (ErrRead × Bool) → List Event
  | [] => []
  | (r, stop) :: rest =>
      err_iter r ++ (if stop then [] else listen_error rest)

/-- The state of the child's stdin pipe as seen by a write: open, or broken
because the reading end is gone (the child exited). -/
inductive PipeState where
  | openPipe
  | brokenPipe (e : String)
deriving DecidableEq, Repr

/-- `this.#output.write(cmd, null)`: on an open pipe the bytes are delivered
and the call returns; on a broken pipe the GIO write throws, and the source
wraps it in no try/catch, so the failure is the call's result. -/
def write_cmd (p : PipeState) (cmd : String) : Except String (List Event) :=
  match p with
  | PipeState.openPipe => Except.ok [Event.writeIn cmd]
  | PipeState.brokenPipe e => Except.error e

/-- `enable() { this.#output.write('enable\n', null); }` -/
def enable (p : PipeState) : Except String (List Event) :=
  write_cmd p "enable\n"

/-- `disable() { this.#output.write('disable\n', null); }` -/
def disable (p : PipeState) : Except String (List Event) :=
  write_cmd p "disable\n"

/-- The private fields of a `Time_change_listener` instance.  The stream and
subprocess references are opaque handles (`Nat`); `#callback_for_errors` is
likewise an opaque reference to the owner-supplied function, since the source
never replaces it. -/
structure SupState where
  callback_when_change : ChangeCb
  callback_for_errors : Nat
  subprocess : Nat
  input : Nat
  input_error : Nat
  output : Nat
  end_listen : Bool
deriving DecidableEq, Repr

/-- The outcome of one call to `finalize`. -/
structure FinalizeResult where
  result : Except String Unit
  state : SupState
  child_running : Bool
  events : List Event
deriving Repr

/-- `finalize()`: sets `#callback_when_change` to the no-op, sets
`#end_listen`, writes `'exit\n'` to the child's stdin, then
`this.#subprocess.wait(null)`.  `child_running` says whether the child (and
hence the reading end of its stdin pipe) is still alive when the call starts:
if it is not, the unguarded write throws and the call aborts before the wait,
with the first two field mutations already performed. -/
def finalize (st : SupState) (child_running : Bool) : FinalizeResult :=
  let st1 : SupState :=
    { st with callback_when_change := ChangeCb.noop, end_listen := true }
  if child_running then
    { result := Except.ok ()
      state := st1
      child_running := false
      events := [Event.writeIn "exit\n", Event.waitChild] }
  else
    { result := Except.error "broken pipe"
      state := st1
      child_running := false
      events := [] }

/-- The environment the constructor runs in: which build tools are on the
search path, whether `make -C path` succeeds, what it writes to stderr, and
whether spawning the built executable succeeds. -/
structure BuildEnv where
  has_make : Bool
  has_gcc : Bool
  make_ok : Bool
  make_stderr : String
  spawn_ok : Bool
  spawn_err_msg : String
deriving DecidableEq, Repr

/-- The missing-dependency message thrown when `make` or `gcc` is not found
(the translator `_` modelled as the identity). -/
def missing_deps_msg : String :=
  "Missing dependencies `make` and `gcc`. Install them, in e.g. on Debian-based system with `sudo apt install build-essential`, then reload the applet (in e.g. in restarting Cinnamon)."

/-- The message of the error rethrown when the compilation step fails:
`` `${_("Compilation of")} \`${EXECUTABLE_NAME}\` ${_("failed")}.\n\n` ``
followed by the caught error's message (the captured stderr text). -/
def compilation_failed_msg (stderr : String) : String :=
  "Compilation of `" ++ EXECUTABLE_NAME ++ "` failed.\n\n" ++ stderr

/-- The constructor: check `find_program_in_path` for `make` and `gcc` (throw
the missing-dependency error before any subprocess exists otherwise); spawn
`make -C path` and check its exit status (throw the wrapped compilation
failure otherwise); spawn the child executable (propagate its init failure
otherwise); on success return the initial field state, with both read loops
started.  The second component lists the subprocesses spawned. -/
def construct (env : BuildEnv) : Except String SupState × List Event :=
  if env.has_make && env.has_gcc then
    if env.make_ok then
      if env.spawn_ok then
        (Except.ok
          { callback_when_change := ChangeCb.owner
            callback_for_errors := 0
            subprocess := 1
            input := 2
            input_error := 3
            output := 4
            end_listen := false },
         [Event.spawnMake, Event.spawnChild])
      else (Except.error env.spawn_err_msg, [Event.spawnMake])
    else (Except.error (compilation_failed_msg env.make_stderr), [Event.spawnMake])
  else (Except.error missing_deps_msg, [])

/-- The reads the Notification Reader processes before `finalize` is called:
one line per string, each under the pre-`finalize` snapshot. -/
def pre_lines (ls : List String) : List (OutRead × IterCtx) :=
  ls.map fun l => (OutRead.line l, preCtx)

/-- The pairs processed by `#listen_input` before it exits: every pair up to
and including the first whose snapshot has the stop flag set. -/
def takeThroughStop : List (OutRead × IterCtx) → List (OutRead × IterCtx)
  | [] => []
  | p :: rest => p :: (if p.2.stop then [] else takeThroughStop rest)

/-- The pairs processed by `#listen_error` before it exits: every pair up to
and including the first whose stop-flag snapshot is set. -/
def takeThroughStopErr : List (ErrRead × Bool) → List (ErrRead × Bool)
  | [] => []
  | p :: rest => p :: (if p.2 then [] else takeThroughStopErr rest)

/-- Extract the argument of an `onError` event. -/
def onErrorArg : Event → Option ErrArg
  | Event.onError a => some a
  | _ => none

/-- The field state of a freshly constructed listener (the record `construct`
returns on success). -/
def initState : SupState :=
  { callback_when_change := ChangeCb.owner
    callback_for_errors := 0
    subprocess := 1
    input := 2
    input_error := 3
    output := 4
    end_listen := false }

/-- An environment in which `make` is absent from the search path. -/
def envC8 : BuildEnv :=
  { has_make := false
    has_gcc := true
    make_ok := true
    make_stderr := ""
    spawn_ok := true
    spawn_err_msg := "" }

/-- An environment in which both tools are present but `make -C path` exits
non-zero after writing `"syntax error"` to its stderr. -/
def envC9 : BuildEnv :=
  { has_make := true
    has_gcc := true
    make_ok := false
    make_stderr := "syntax error"
    spawn_ok := true
    spawn_err_msg := "" }

/-- Helper: in the per-line trace of the Notification Reader, `onChange`
occurs exactly once per line. -/
theorem count_onchange_flat (ls : List String) :
    (ls.flatMap
        (fun l => [Event.readOut (OutRead.line l), Event.onChange])).count
      Event.onChange = ls.length := by
  induction ls with
  | nil => rfl
  | cons a t ih => simp [List.flatMap_cons, List.count_append, ih, List.count_cons]

/-- C1: for every sequence of N lines written by the child to its standard
output and read before teardown is called, the owner's `onChange` callback is
invoked exactly N times, once immediately after each line's read and in the
order the lines were written, regardless of the lines' content. -/
theorem c1_onchange_once_per_line_in_order (ls : List String) :
    listen_input (pre_lines ls) =
      ls.flatMap (fun l => [Event.readOut (OutRead.line l), Event.onChange]) ∧
    (listen_input (pre_lines ls)).count Event.onChange = ls.length := by
  have htrace : listen_input (pre_lines ls) =
      ls.flatMap (fun l => [Event.readOut (OutRead.line l), Event.onChange]) := by
    induction ls with
    | nil => rfl
    | cons a t ih =>
        simp [pre_lines, listen_input, preCtx, ChangeCb.invoke,
          List.flatMap_cons] at ih ⊢
        exact ih
  exact ⟨htrace, by rw [htrace]; exact count_onchange_flat ls⟩

/-- C3: after `finalize` has run (it replaces `#callback_when_change` with a
no-op before doing anything else), the owner's `onChange` callback is never
invoked again: every read-loop iteration whose snapshot holds the no-op
callback — in particular every iteration after `finalize` returns — produces
no `onChange` event, even if the child had buffered additional output lines
before exiting. -/
theorem c3_no_onchange_after_finalize (ps : List (OutRead × IterCtx))
    (h : ∀ p ∈ ps, p.2.cb = ChangeCb.noop) :
    Event.onChange ∉ listen_input ps := by
  induction ps with
  | nil => simp [listen_input]
  | cons p rest ih =>
      obtain ⟨r, c⟩ := p
      have hc : c.cb = ChangeCb.noop := h (r, c) (List.mem_cons_self _ _)
      have hrest : ∀ q ∈ rest, q.2.cb = ChangeCb.noop :=
        fun q hq => h q (List.mem_cons_of_mem _ hq)
      cases hstop : c.stop with
      | true => simp [listen_input, hc, hstop, ChangeCb.invoke]
      | false => simp [listen_input, hc, hstop, ChangeCb.invoke, ih hrest]

/-- Witness for C3 at a concrete post-teardown schedule: a buffered line and
then end of file, both processed after `finalize`, yield no `onChange`. -/
theorem c3_witness :
    Event.onChange ∉
      listen_input [(OutRead.line "x", postCtx), (OutRead.eof, postCtx)] :=
  c3_no_onchange_after_finalize
    [(OutRead.line "x", postCtx), (OutRead.eof, postCtx)] (by decide)

/-- Counterexample to C6: the child exits spontaneously (its stdout closes)
while the stop flag is still unset.  The read completes with end of file, yet
the loop invokes `onChange` and performs a further read (which again invokes
`onChange`): a read that fails because the stream closed does not terminate
the loop, contrary to the claim. -/
theorem c6_counterexample :
    listen_input [(OutRead.eof, preCtx), (OutRead.eof, preCtx)] =
      [Event.readOut OutRead.eof, Event.onChange,
       Event.readOut OutRead.eof, Event.onChange] ∧
    (listen_input [(OutRead.eof, preCtx), (OutRead.eof, preCtx)]).count
      Event.onChange = 2 :=
  ⟨rfl, by decide⟩

/-- C6 amended: the Notification Reader's loop condition consults only the
stop flag.  The loop processes every completed read — line, end of file, or
failure alike, each still invoking the current change callback — up to and
including the first iteration whose snapshot has the stop flag set, and only
that flag ends the iteration. -/
theorem c6_amended_only_stop_flag_ends_loop (ps : List (OutRead × IterCtx)) :
    listen_input ps =
      (takeThroughStop ps).flatMap
        (fun p => Event.readOut p.1 :: ChangeCb.invoke p.2.cb) := by
  induction ps with
  | nil => rfl
  | cons p rest ih =>
      obtain ⟨r, c⟩ := p
      cases hstop : c.stop <;>
        simp [listen_input, takeThroughStop, hstop, ih, List.flatMap_cons]

/-- C5: for every non-empty line the child writes to its stderr before
teardown, `onError` is invoked exactly once, in order, with the message
`err_msg line = err_msg_head ++ line` — which contains the line's content
verbatim — and an empty line never triggers `onError`. -/
theorem c5_onerror_once_per_nonempty_line (ls : List String) :
    (listen_error (ls.map fun s => (ErrRead.line s, false))).filterMap
        onErrorArg =
      (ls.filter fun s => decide (0 < s.length)).map
        (fun s => ErrArg.msg (err_msg s)) ∧
    ∀ s : String, ∃ p, err_msg s = p ++ s := by
  refine ⟨?_, fun s => ⟨err_msg_head, rfl⟩⟩
  induction ls with
  | nil => rfl
  | cons a t ih =>
      by_cases ha : 0 < a.length <;>
        simp [listen_error, err_iter, ha, onErrorArg, List.filter_cons,
          List.filterMap_append, ih]

/-- Counterexample to C7: a read failure on the error stream while the stop
flag is unset does invoke `onError` (with the caught error value, not a
formatted string), but the loop does not stop iterating: it performs a
further read and delivers its line, contrary to the claim. -/
theorem c7_counterexample :
    listen_error
        [(ErrRead.readFail "read error", false), (ErrRead.line "later", false)] =
      [Event.readErr (ErrRead.readFail "read error"),
       Event.onError (ErrArg.errObj "read error"),
       Event.readErr (ErrRead.line "later"),
       Event.onError (ErrArg.msg (err_msg "later"))] := rfl

/-- C7 amended: on a read failure the Error Reader invokes `onError` with the
caught error value itself and then continues: the loop keeps iterating until
the stop flag is observed set, processing every read up to and including the
first stop-flagged iteration.  The failure affects only this loop — the
Notification Reader's trace is a separate function of its own stream. -/
theorem c7_amended_failure_reported_loop_continues
    (ps : List (ErrRead × Bool)) :
    listen_error ps = (takeThroughStopErr ps).flatMap (fun p => err_iter p.1) ∧
    ∀ e, err_iter (ErrRead.readFail e) =
      [Event.readErr (ErrRead.readFail e), Event.onError (ErrArg.errObj e)] := by
  refine ⟨?_, fun e => rfl⟩
  induction ps with
  | nil => rfl
  | cons p rest ih =>
      obtain ⟨r, b⟩ := p
      cases b <;>
        simp [listen_error, takeThroughStopErr, ih, List.flatMap_cons]

/-- Counterexample to C2: `enable` performs the stream write with no
try/catch, so when the pipe is broken (the child already exited) the write's
failure is the call's synchronous result — it is raised to the caller, and no
`onError` delivery happens (the error outcome carries no event at all). -/
theorem c2_counterexample :
    enable (PipeState.brokenPipe "broken pipe") =
      Except.error "broken pipe" := rfl

/-- C2 amended: for every call to `enable()` or `disable()` after successful
construction, a failure of the underlying write to the child's input stream
is raised synchronously to the caller and is never delivered through
`onError` (the failing call produces no events); a successful call delivers
exactly its one newline-terminated command. -/
theorem c2_amended_write_failure_raises_synchronously (e : String) :
    enable (PipeState.brokenPipe e) = Except.error e ∧
    disable (PipeState.brokenPipe e) = Except.error e ∧
    enable PipeState.openPipe = Except.ok [Event.writeIn "enable\n"] ∧
    disable PipeState.openPipe = Except.ok [Event.writeIn "disable\n"] :=
  ⟨rfl, rfl, rfl, rfl⟩

/-- Counterexample to C4: the first `finalize` call succeeds, sending one
`exit` command and waiting for the child; but a second call finds the child
already exited, so its unguarded write raises the broken-pipe failure
synchronously, sends no `exit` command and never reaches the wait — contrary
to the claim that every call sends exactly one `exit` command and that a
second call raises no unhandled failure. -/
theorem c4_counterexample :
    (finalize initState true).result = Except.ok () ∧
    (finalize initState true).events =
      [Event.writeIn "exit\n", Event.waitChild] ∧
    (finalize (finalize initState true).state
        (finalize initState true).child_running).result =
      Except.error "broken pipe" ∧
    (finalize (finalize initState true).state
        (finalize initState true).child_running).events = [] :=
  ⟨rfl, rfl, rfl, rfl⟩

/-- C4 amended: a `finalize` call made while the child is still running sends
exactly one newline-terminated `exit` command and blocks until the child has
exited before returning; a later call, the child having already exited, does
not hang (it never reaches the wait) but raises the broken-pipe write failure
synchronously and sends nothing. -/
theorem c4_amended_second_call_raises (st : SupState) :
    (finalize st true).result = Except.ok () ∧
    (finalize st true).events = [Event.writeIn "exit\n", Event.waitChild] ∧
    (finalize st true).child_running = false ∧
    (finalize st false).result = Except.error "broken pipe" ∧
    (finalize st false).events = [] :=
  ⟨rfl, rfl, rfl, rfl, rfl⟩

/-- C8: if `make` or `gcc` is absent from the command search path, the
constructor fails with the missing-dependency error — whose message carries
the remediation instruction `sudo apt install build-essential` — and no
subprocess (neither the build step nor the child executable) is spawned. -/
theorem c8_missing_deps_fail_before_spawn (env : BuildEnv)
    (h : env.has_make = false ∨ env.has_gcc = false) :
    (construct env).1 = Except.error missing_deps_msg ∧
    (construct env).2 = [] ∧
    ∃ p q, missing_deps_msg = p ++ "sudo apt install build-essential" ++ q := by
  have hb : (env.has_make && env.has_gcc) = false := by
    rcases h with h | h <;> simp [h]
  refine ⟨by simp [construct, hb], by simp [construct, hb],
    "Missing dependencies `make` and `gcc`. Install them, in e.g. on Debian-based system with `",
    "`, then reload the applet (in e.g. in restarting Cinnamon).", rfl⟩

/-- Witness for C8: `make` absent from the search path. -/
theorem c8_witness :
    (construct envC8).1 = Except.error missing_deps_msg ∧
    (construct envC8).2 = [] ∧
    ∃ p q, missing_deps_msg = p ++ "sudo apt install build-essential" ++ q :=
  c8_missing_deps_fail_before_spawn envC8 (Or.inl rfl)

/-- C9: if the build step exits with a non-success status, construction fails
with the compilation-failure error, whose message contains the text the build
step wrote to its error stream verbatim, and the child executable is never
spawned (only the build step was). -/
theorem c9_build_failure_wraps_stderr (env : BuildEnv)
    (hm : env.has_make = true) (hg : env.has_gcc = true)
    (hf : env.make_ok = false) :
    (construct env).1 =
      Except.error (compilation_failed_msg env.make_stderr) ∧
    (∃ p, compilation_failed_msg env.make_stderr = p ++ env.make_stderr) ∧
    Event.spawnChild ∉ (construct env).2 := by
  refine ⟨by simp [construct, hm, hg, hf],
    ⟨"Compilation of `" ++ EXECUTABLE_NAME ++ "` failed.\n\n", rfl⟩,
    by simp [construct, hm, hg, hf]⟩

/-- Witness for C9: a build step that exits non-zero after writing
`"syntax error"` to its error stream. -/
theorem c9_witness :
    (construct envC9).1 =
      Except.error (compilation_failed_msg "syntax error") ∧
    (∃ p, compilation_failed_msg "syntax error" = p ++ "syntax error") ∧
    Event.spawnChild ∉ (construct envC9).2 :=
  c9_build_failure_wraps_stderr envC9 rfl rfl rfl

/-- C10: `finalize` changes only the `#callback_when_change` and
`#end_listen` fields — in particular `#callback_for_errors` keeps the
owner-supplied callback — so an error-stream read that completes after
teardown has begun (stop-flag snapshot set) with a non-empty line still
invokes `onError` once with the formatted message. -/
theorem c10_finalize_frame (st : SupState) (b : Bool) (s : String)
    (h : 0 < s.length) :
    (finalize st b).state =
      { st with callback_when_change := ChangeCb.noop, end_listen := true } ∧
    (finalize st b).state.callback_for_errors = st.callback_for_errors ∧
    listen_error [(ErrRead.line s, true)] =
      [Event.readErr (ErrRead.line s), Event.onError (ErrArg.msg (err_msg s))] := by
  refine ⟨?_, ?_, ?_⟩
  · cases b <;> rfl
  · cases b <;> rfl
  · simp [listen_error, err_iter, h]

/-- Witness for C10 at the freshly constructed state and a pending stderr
line `"x"` that completes after teardown has begun. -/
theorem c10_witness :
    (finalize initState true).state =
      { initState with
          callback_when_change := ChangeCb.noop, end_listen := true } ∧
    (finalize initState true).state.callback_for_errors =
      initState.callback_for_errors ∧
    listen_error [(ErrRead.line "x", true)] =
      [Event.readErr (ErrRead.line "x"),
       Event.onError (ErrArg.msg (err_msg "x"))] :=
  c10_finalize_frame initState true "x" (by decide)

end TimeChangeListener
